import Mathlib

/-!
A shallow embedding of the core of a Rust YAML binding (libyaml wrapper):
the Mark/Error model, the event stream, the document stream, the
document-tree node views and their iterators.

The two repository source files under verification are
`src/yaml/parser.rs` and `src/document.rs`.  The engine (libyaml) itself,
the `ffi` constant/record declarations, the `codecs` text-decoding helpers
and the `event` module are external collaborators or repository modules
not available here; those parts are modelled from the specification and
are marked `Modelled from the spec:` in their doc comments.

Conventions of the embedding:
- raw bytes and decoded text are `List Nat` (byte values / Unicode code
  points); a nullable C string pointer is `Option (List Nat)`;
- a Rust panic (`fail!` / `panic!` / `.unwrap()` on `None`) is modelled as
  `Except.error msg`; a Rust `Option`/`Result` maps to `Option`/`Except`;
- the engine's future behaviour (its answers to parse-one-event and
  compose-one-document calls) is modelled as a script stored in the
  parser state, so that the wrapper code's routing of engine outcomes is
  the object of study.
-/

deriving instance DecidableEq for Except

namespace LibYaml

/-- Modelled from the spec: the `codecs` module is not under `src/`.
UTF-8 decoding of a byte sequence into a sequence of Unicode code points;
`none` on any malformed byte sequence. -/
def decode_utf8 : List Nat → Option (List Nat)
  | [] => some []
  | b :: rest =>
    if b < 0x80 then
      (decode_utf8 rest).map (fun t => b :: t)
    else if b < 0xC2 then
      none
    else if b < 0xE0 then
      match rest with
      | b1 :: rest1 =>
        if 0x80 ≤ b1 && b1 < 0xC0 then
          (decode_utf8 rest1).map (fun t => ((b - 0xC0) * 0x40 + (b1 - 0x80)) :: t)
        else none
      | [] => none
    else if b < 0xF0 then
      match rest with
      | b1 :: b2 :: rest2 =>
        if (0x80 ≤ b1 && b1 < 0xC0) && (0x80 ≤ b2 && b2 < 0xC0) then
          (decode_utf8 rest2).map
            (fun t => ((b - 0xE0) * 0x1000 + (b1 - 0x80) * 0x40 + (b2 - 0x80)) :: t)
        else none
      | _ => none
    else if b < 0xF5 then
      match rest with
      | b1 :: b2 :: b3 :: rest3 =>
        if ((0x80 ≤ b1 && b1 < 0xC0) && (0x80 ≤ b2 && b2 < 0xC0))
            && (0x80 ≤ b3 && b3 < 0xC0) then
          (decode_utf8 rest3).map
            (fun t => ((b - 0xF0) * 0x40000 + (b1 - 0x80) * 0x1000
                        + (b2 - 0x80) * 0x40 + (b3 - 0x80)) :: t)
        else none
      | _ => none
    else none

/-- Modelled from the spec: `codecs::decode_c_str` — decode a nullable C
string pointer; a null pointer, and a decoding failure of the diagnostic
text, both yield "no text" (the spec's fallback rule in §4.4). -/
def decode_c_str : Option (List Nat) → Option (List Nat)
  | none => none
  | some bytes => decode_utf8 bytes

/-- Modelled from the spec: `codecs::decode_buf` — decode a byte buffer
of known length (the buffer is the list; its length is the Rust `length`
argument). -/
def decode_buf (value : List Nat) : Option (List Nat) :=
  decode_utf8 value

/-- Engine-native position record (`ffi::yaml_mark_t`).  Modelled from the
spec: the `ffi` module is not under `src/`. -/
structure EngineMark where
  index : Nat
  line : Nat
  column : Nat
deriving DecidableEq, Repr

/-- `YamlMark` from `src/yaml/parser.rs`: an immutable snapshot of an
input position. -/
structure YamlMark where
  index : Nat
  line : Nat
  column : Nat
deriving DecidableEq, Repr

/-- `YamlMark::conv` from `src/yaml/parser.rs`: conversion from the
engine-native mark record. -/
def YamlMark.conv (mark : EngineMark) : YamlMark :=
  { index := mark.index, line := mark.line, column := mark.column }

/-- The engine's error-code enumeration (`ffi::yaml_error_type_t`).
Modelled from the spec: the `ffi` module is not under `src/`; the
taxonomy mirrors the engine subsystems (§7). -/
inductive EngineErrorCode where
  | YAML_NO_ERROR
  | YAML_MEMORY_ERROR
  | YAML_READER_ERROR
  | YAML_SCANNER_ERROR
  | YAML_PARSER_ERROR
  | YAML_COMPOSER_ERROR
  | YAML_WRITER_ERROR
  | YAML_EMITTER_ERROR
deriving DecidableEq, Repr

/-- `YamlErrorType` from `src/yaml/parser.rs`. -/
inductive YamlErrorType where
  | YamlNoError
  | YamlMemoryError
  | YamlReaderError
  | YamlScannerError
  | YamlParserError
  | YamlComposerError
  | YamlWriterError
  | YamlEmitterError
deriving DecidableEq, Repr

/-- `YamlError` from `src/yaml/parser.rs`: the error snapshot. -/
structure YamlError where
  kind : YamlErrorType
  problem : Option (List Nat)
  byte_offset : Nat
  problem_mark : YamlMark
  context : Option (List Nat)
  context_mark : YamlMark
deriving DecidableEq, Repr

/-- One step of the engine's scripted event-level behaviour: either yield
the next event record, or fail, setting the error fields of the parser
state.  Modelled from the spec (§4.2, §4.4): the engine is an external
collaborator. -/
inductive EngineStep (ev : Type) where
  | yield (e : ev)
  | failWith (err : EngineErrorCode) (problem : Option (List Nat)) (offset : Nat)
      (problem_mark : EngineMark) (context : Option (List Nat)) (context_mark : EngineMark)
deriving DecidableEq, Repr

/-- `YamlVersionDirective` (in the `event` module, not under `src/`).
Modelled from the spec: §3, `{major, minor}`. -/
structure YamlVersionDirective where
  major : Nat
  minor : Nat
deriving DecidableEq, Repr

/-- `YamlTagDirective` (in the `event` module, not under `src/`).
Modelled from the spec: §3, `{handle, prefix}`; the second field is the
tag prefix. -/
structure YamlTagDirective where
  handle : List Nat
  pfx : List Nat
deriving DecidableEq, Repr

/-- Stream encodings (`ffi::yaml_encoding_t`).  Modelled from the spec:
the `ffi` module is not under `src/`. -/
inductive YamlEncoding where
  | YamlAnyEncoding
  | YamlUtf8Encoding
  | YamlUtf16LeEncoding
  | YamlUtf16BeEncoding
deriving DecidableEq, Repr

/-- `YamlSequenceParam` (in the `event` module, not under `src/`).
Modelled from the spec: §3, the common collection-start payload
`{anchor, tag, implicit, style}`; the style is kept as a raw engine
code. -/
structure YamlSequenceParam where
  anchor : Option (List Nat)
  tag : Option (List Nat)
  implicit : Bool
  style : Nat
deriving DecidableEq, Repr

/-- `YamlScalarParam` (in the `event` module, not under `src/`).
Modelled from the spec: §3. -/
structure YamlScalarParam where
  anchor : Option (List Nat)
  tag : Option (List Nat)
  value : List Nat
  plain_implicit : Bool
  quoted_implicit : Bool
  style : Nat
deriving DecidableEq, Repr

/-- The engine's in-memory event record (`ffi::yaml_event_t`), by
variant.  Modelled from the spec: the engine and the `ffi` module are
external; its text fields are assumed already validated by the engine. -/
inductive EngineEvent where
  | streamStart (encoding : YamlEncoding)
  | streamEnd
  | documentStart (version : Option YamlVersionDirective)
      (tags : List YamlTagDirective) (implicit : Bool)
  | documentEnd (implicit : Bool)
  | sequenceStart (p : YamlSequenceParam)
  | sequenceEnd
  | mappingStart (p : YamlSequenceParam)
  | mappingEnd
  | scalar (p : YamlScalarParam)
  | aliasEv (anchor : List Nat)
  | noEvent
deriving DecidableEq, Repr

/-- `YamlEvent` (in the `event` module, not under `src/`).  Modelled from
the spec: §3's closed variant set, constructor names as used by the tests
in `src/yaml/parser.rs`. -/
inductive YamlEvent where
  | YamlStreamStartEvent (encoding : YamlEncoding)
  | YamlStreamEndEvent
  | YamlDocumentStartEvent (version : Option YamlVersionDirective)
      (tags : List YamlTagDirective) (implicit : Bool)
  | YamlDocumentEndEvent (implicit : Bool)
  | YamlSequenceStartEvent (p : YamlSequenceParam)
  | YamlSequenceEndEvent
  | YamlMappingStartEvent (p : YamlSequenceParam)
  | YamlMappingEndEvent
  | YamlScalarEvent (p : YamlScalarParam)
  | YamlAliasEvent (anchor : List Nat)
  | YamlNoEvent
deriving DecidableEq, Repr

/-- `YamlEvent::load` (in the `event` module, not under `src/`).
Modelled from the spec: §4.2 — decodes one engine event record into an
owned `YamlEvent`, copying every field out of the engine record. -/
def YamlEvent.load : EngineEvent → YamlEvent
  | .streamStart encoding => .YamlStreamStartEvent encoding
  | .streamEnd => .YamlStreamEndEvent
  | .documentStart version tags implicit => .YamlDocumentStartEvent version tags implicit
  | .documentEnd implicit => .YamlDocumentEndEvent implicit
  | .sequenceStart p => .YamlSequenceStartEvent p
  | .sequenceEnd => .YamlSequenceEndEvent
  | .mappingStart p => .YamlMappingStartEvent p
  | .mappingEnd => .YamlMappingEndEvent
  | .scalar p => .YamlScalarEvent p
  | .aliasEv anchor => .YamlAliasEvent anchor
  | .noEvent => .YamlNoEvent

/-- The payload of one engine node record (`ffi::yaml_node_t`): the shape
discriminant together with the matching member of the C data union.
Modelled from the spec: the `ffi` module is not under `src/`.  `noNode`
is the engine's `YAML_NO_NODE` discriminant, the one member of the closed
engine enumeration outside {scalar, sequence, mapping}.  Sequence items
and mapping key/value pairs are engine node indices (C `int`). -/
inductive EngineNodeData where
  | noNode
  | scalar (value : List Nat) (style : Nat)
  | sequence (items : List Int) (style : Nat)
  | mapping (pairs : List (Int × Int)) (style : Nat)
deriving DecidableEq, Repr

/-- One engine node record (`ffi::yaml_node_t`).  Modelled from the spec:
the `ffi` module is not under `src/`. -/
structure EngineNode where
  data : EngineNodeData
  tag : Option (List Nat)
  start_mark : EngineMark
  end_mark : EngineMark
deriving DecidableEq, Repr

/-- One step of the engine's scripted document-level behaviour: compose a
document (given by its node array, node 1 first), or fail, setting the
error fields.  Modelled from the spec (§4.3): the engine is an external
collaborator. -/
inductive DocStep where
  | compose (nodes : List EngineNode)
  | composeFail (err : EngineErrorCode) (problem : Option (List Nat)) (offset : Nat)
      (problem_mark : EngineMark) (context : Option (List Nat)) (context_mark : EngineMark)
deriving DecidableEq, Repr

/-- The engine parser state (`ffi::yaml_parser_t`), as visible to the
wrapper: the diagnostic fields that `get_error` reads, plus the engine's
scripted future behaviour (event-level and document-level).  The field
names `error`, `problem`, `problem_offset`, `problem_mark`, `context`,
`context_mark` are the C struct's fields; `script`/`docScript` model the
external engine (spec §4.2/§4.3). -/
structure ParserMem where
  script : List (EngineStep EngineEvent)
  docScript : List DocStep
  error : EngineErrorCode
  problem : Option (List Nat)
  problem_offset : Nat
  problem_mark : EngineMark
  context : Option (List Nat)
  context_mark : EngineMark
deriving DecidableEq, Repr

/-- Modelled from the spec: `ffi::yaml_parser_parse`, the engine's
parse-one-event primitive.  Returns the event record on success (`some`)
or `none` on failure, together with the updated parser state; a failing
step records the engine's diagnostic fields in the state.  An exhausted
script is a stuck failure that leaves the state unchanged. -/
def yaml_parser_parse (p : ParserMem) : Option EngineEvent × ParserMem :=
  match p.script with
  | [] => (none, p)
  | .yield e :: rest => (some e, { p with script := rest })
  | .failWith err problem offset pm ctx cm :: rest =>
      (none, { p with
               script := rest, error := err, problem := problem
               problem_offset := offset, problem_mark := pm
               context := ctx, context_mark := cm })

/-- `YamlBaseParser::get_error` from `src/yaml/parser.rs`: snapshot the
engine's current error state.  The source matches seven of the eight
engine error codes and sends everything else to
`fail!("unknown error type")`; as in the source, `YAML_MEMORY_ERROR` is
not one of the seven, so it takes the wildcard (panic) branch, modelled
as `none`. -/
def YamlBaseParser.get_error (p : ParserMem) : Option YamlError :=
  match (match p.error with
    | .YAML_NO_ERROR => some YamlErrorType.YamlNoError
    | .YAML_READER_ERROR => some .YamlReaderError
    | .YAML_SCANNER_ERROR => some .YamlScannerError
    | .YAML_PARSER_ERROR => some .YamlParserError
    | .YAML_COMPOSER_ERROR => some .YamlComposerError
    | .YAML_WRITER_ERROR => some .YamlWriterError
    | .YAML_EMITTER_ERROR => some .YamlEmitterError
    | _ => none) with
  | none => none
  | some kind => some
      { kind := kind
        problem := decode_c_str p.problem
        byte_offset := p.problem_offset
        problem_mark := YamlMark.conv p.problem_mark
        context := decode_c_str p.context
        context_mark := YamlMark.conv p.context_mark }

/-- `YamlParser::parse_event` from `src/yaml/parser.rs`: allocate an
event record, call the engine's parse primitive on it, and on success
decode it via `YamlEvent::load` (the record itself is then released). -/
def YamlParser.parse_event (p : ParserMem) : Option YamlEvent × ParserMem :=
  match yaml_parser_parse p with
  | (none, p1) => (none, p1)
  | (some e, p1) => (some (YamlEvent.load e), p1)

/-- `YamlEventStream::next_event` from `src/yaml/parser.rs`: success maps
to `Ok(event)`, failure to `Err(get_error())`.  The outer `Except String`
models the panic inside `get_error` (its `fail!` branch); the inner
`Except YamlError YamlEvent` is the Rust `Result`. -/
def YamlEventStream.next_event (p : ParserMem) :
    Except String (Except YamlError YamlEvent) × ParserMem :=
  match YamlParser.parse_event p with
  | (some evt, p1) => (.ok (.ok evt), p1)
  | (none, p1) =>
    match YamlBaseParser.get_error p1 with
    | some err => (.ok (.error err), p1)
    | none => (.error "unknown error type", p1)

/-- A materialized engine document tree (`ffi::yaml_document_t`): the
engine's node array.  Node indices are 1-based; the root, when the
document is not empty, is node 1.  Modelled from the spec: the `ffi`
module is not under `src/`. -/
structure YamlDocumentMem where
  nodes : List EngineNode
deriving DecidableEq, Repr

/-- Modelled from the spec: `ffi::yaml_parser_load`, the engine's
compose-one-document primitive.  On success it fills the document memory
and returns nonzero; on failure it sets the diagnostic fields and
returns zero.  When the scripted input is exhausted the engine succeeds
with a document that has no nodes (no root) — the end-of-stream signal
the spec's §4.3/§9 describe. -/
def yaml_parser_load (p : ParserMem) : Option YamlDocumentMem × ParserMem :=
  match p.docScript with
  | [] => (some { nodes := [] }, p)
  | .compose ns :: rest => (some { nodes := ns }, { p with docScript := rest })
  | .composeFail err problem offset pm ctx cm :: rest =>
      (none, { p with
               docScript := rest, error := err, problem := problem
               problem_offset := offset, problem_mark := pm
               context := ctx, context_mark := cm })

/-- `YamlDocument` from `src/document.rs`: owns one engine document
tree. -/
structure YamlDocument where
  document_mem : YamlDocumentMem
deriving DecidableEq, Repr

/-- `YamlDocument::parser_load` from `src/document.rs`: call the engine's
compose primitive into fresh document memory; a zero return is `None`,
otherwise the owned document. -/
def YamlDocument.parser_load (p : ParserMem) : Option YamlDocument × ParserMem :=
  match yaml_parser_load p with
  | (none, p1) => (none, p1)
  | (some mem, p1) => (some { document_mem := mem }, p1)

/-- `YamlDocumentStream::next_document` from `src/yaml/parser.rs`:
success maps to `Ok(document)`, failure to `Err(get_error())`.  As for
`next_event`, the outer `Except String` models the panic inside
`get_error`. -/
def YamlDocumentStream.next_document (p : ParserMem) :
    Except String (Except YamlError YamlDocument) × ParserMem :=
  match YamlDocument.parser_load p with
  | (some doc, p1) => (.ok (.ok doc), p1)
  | (none, p1) =>
    match YamlBaseParser.get_error p1 with
    | some err => (.ok (.error err), p1)
    | none => (.error "unknown error type", p1)

/-- Modelled from the spec: `ffi::yaml_document_get_root_node` — the
engine returns a pointer to the document's root node (its first node),
or null (`none`) when the document has no content. -/
def yaml_document_get_root_node (d : YamlDocument) : Option EngineNode :=
  d.document_mem.nodes.head?

/-- Modelled from the spec: `ffi::yaml_document_get_node` — the engine
returns a pointer to node `index` (1-based), or null (`none`) when the
index is out of range. -/
def yaml_document_get_node (d : YamlDocument) (index : Int) : Option EngineNode :=
  if 1 ≤ index then d.document_mem.nodes.get? (index.toNat - 1) else none

/-- `YamlDocument::is_empty` from `src/document.rs`: the engine's root
accessor returned null. -/
def YamlDocument.is_empty (d : YamlDocument) : Bool :=
  yaml_document_get_root_node d = none

/-- `YamlScalarData` from `src/document.rs`: a scalar node view — the
node record plus the scalar member of its data union (`value`/`length`
modelled as the byte list, and the style code). -/
structure YamlScalarData where
  node : EngineNode
  value : List Nat
  style : Nat
deriving DecidableEq, Repr

/-- `YamlSequenceData` from `src/document.rs`: a sequence node view — the
owning document, the node record and the item array (node indices) of
the sequence member of its data union. -/
structure YamlSequenceData where
  doc : YamlDocument
  node : EngineNode
  items : List Int
deriving DecidableEq, Repr

/-- `YamlMappingData` from `src/document.rs`: a mapping node view — the
owning document, the node record and the pair array (key/value node
indices) of the mapping member of its data union. -/
structure YamlMappingData where
  doc : YamlDocument
  node : EngineNode
  pairs : List (Int × Int)
deriving DecidableEq, Repr

/-- `YamlNode` from `src/document.rs`: the polymorphic node view. -/
inductive YamlNode where
  | YamlScalarNode (d : YamlScalarData)
  | YamlSequenceNode (d : YamlSequenceData)
  | YamlMappingNode (d : YamlMappingData)
deriving DecidableEq, Repr

/-- `YamlDocument::load` from `src/document.rs`: classify one engine node
record by its shape discriminant and build the matching view.  A null
node pointer is `panic!("empty node")`; a discriminant outside
{scalar, sequence, mapping} (the engine's `YAML_NO_NODE`) is
`panic!("invalid node")`; both panics are modelled as `Except.error`. -/
def YamlDocument.load (d : YamlDocument) (node_ptr : Option EngineNode) :
    Except String YamlNode :=
  match node_ptr with
  | none => .error "empty node"
  | some node =>
    match node.data with
    | .scalar value style =>
        .ok (.YamlScalarNode { node := node, value := value, style := style })
    | .sequence items _ =>
        .ok (.YamlSequenceNode { doc := d, node := node, items := items })
    | .mapping pairs _ =>
        .ok (.YamlMappingNode { doc := d, node := node, pairs := pairs })
    | .noNode => .error "invalid node"

/-- `YamlDocument::get_node` from `src/document.rs`: fetch node `index`
from the engine and materialize it. -/
def YamlDocument.get_node (d : YamlDocument) (index : Int) : Except String YamlNode :=
  d.load (yaml_document_get_node d index)

/-- `YamlDocument::root` from `src/document.rs`: fetch the engine's root
pointer; null means `None` (checked before any dereference), otherwise
materialize the root node. -/
def YamlDocument.root (d : YamlDocument) : Except String (Option YamlNode) :=
  match yaml_document_get_root_node d with
  | none => .ok none
  | some node => (d.load (some node)).map some

/-- The `YamlNodeData::internal_node` accessor from `src/document.rs`:
the engine node record behind a view. -/
def YamlNode.internal_node : YamlNode → EngineNode
  | .YamlScalarNode s => s.node
  | .YamlSequenceNode s => s.node
  | .YamlMappingNode s => s.node

/-- `YamlNodeData::tag` from `src/document.rs`. -/
def YamlNode.tag (n : YamlNode) : Option (List Nat) :=
  decode_c_str n.internal_node.tag

/-- `YamlNodeData::start_mark` from `src/document.rs`. -/
def YamlNode.start_mark (n : YamlNode) : YamlMark :=
  YamlMark.conv n.internal_node.start_mark

/-- `YamlNodeData::end_mark` from `src/document.rs`. -/
def YamlNode.end_mark (n : YamlNode) : YamlMark :=
  YamlMark.conv n.internal_node.end_mark

/-- `YamlScalarData::get_value` from `src/document.rs`:
`decode_buf(value, length).unwrap()` — the `.unwrap()` panic on a failed
decode is modelled as `Except.error`. -/
def YamlScalarData.get_value (s : YamlScalarData) : Except String (List Nat) :=
  match decode_buf s.value with
  | some text => .ok text
  | none => .error "called unwrap on a None value"

/-- `YamlSequenceIter` from `src/document.rs`: the owning document plus
the `ptr`/`top` cursor pair over the item array.  The pointer pair is
modelled as the full item array together with the `ptr` offset and the
`top` offset. -/
structure YamlSequenceIter where
  doc : YamlDocument
  items : List Int
  top : Nat
  ptr : Nat
deriving DecidableEq, Repr

/-- `YamlSequenceData::values` from `src/document.rs`: a fresh iterator
whose `ptr` is the start of the item array and whose `top` is its end. -/
def YamlSequenceData.values (s : YamlSequenceData) : YamlSequenceIter :=
  { doc := s.doc, items := s.items, top := s.items.length, ptr := 0 }

/-- `<YamlSequenceIter as Iterator>::next` from `src/document.rs`: `None`
once `ptr` has reached `top`; otherwise materialize the node whose index
is at `ptr` and advance `ptr` by one.  A `ptr` strictly past the array
(impossible through the public constructor) is engine-memory UB, modelled
as an error. -/
def YamlSequenceIter.next (it : YamlSequenceIter) :
    Except String (Option (YamlNode × YamlSequenceIter)) :=
  if it.ptr = it.top then .ok none
  else
    match it.items.get? it.ptr with
    | none => .error "out of bounds"
    | some index =>
      match it.doc.get_node index with
      | .error e => .error e
      | .ok node => .ok (some (node, { it with ptr := it.ptr + 1 }))

/-- `YamlMappingIter` from `src/document.rs`: the owning document plus
the `ptr`/`top` cursor pair over the pair array. -/
structure YamlMappingIter where
  doc : YamlDocument
  pairs : List (Int × Int)
  top : Nat
  ptr : Nat
deriving DecidableEq, Repr

/-- `YamlMappingData::pairs` from `src/document.rs`: a fresh iterator
over the pair array. -/
def YamlMappingData.pairs_iter (m : YamlMappingData) : YamlMappingIter :=
  { doc := m.doc, pairs := m.pairs, top := m.pairs.length, ptr := 0 }

/-- `<YamlMappingIter as Iterator>::next` from `src/document.rs`: `None`
once `ptr` has reached `top`; otherwise materialize the key node and the
value node of the pair at `ptr` and advance `ptr` by one. -/
def YamlMappingIter.next (it : YamlMappingIter) :
    Except String (Option ((YamlNode × YamlNode) × YamlMappingIter)) :=
  if it.ptr = it.top then .ok none
  else
    match it.pairs.get? it.ptr with
    | none => .error "out of bounds"
    | some pr =>
      match it.doc.get_node pr.1 with
      | .error e => .error e
      | .ok key =>
        match it.doc.get_node pr.2 with
        | .error e => .error e
        | .ok val => .ok (some ((key, val), { it with ptr := it.ptr + 1 }))

/-- The relevant kinds of `std::io` read failure (`io::IoErrorKind`):
end-of-input and representatives of "any other failure". -/
inductive IoErrorKind where
  | EndOfFile
  | PermissionDenied
  | OtherIoError
deriving DecidableEq, Repr

/-- A caller-supplied pull-style byte source, modelled by the outcomes
its successive `read` calls produce (spec §4.1/§9: an injected capability
with one method).  Each outcome is either a byte count or an I/O error
kind. -/
structure ScriptedReader where
  outcomes : List (Except IoErrorKind Nat)
deriving DecidableEq, Repr

/-- One `read` call on the underlying byte source: consume the next
scripted outcome.  An exhausted script answers with a generic I/O
error. -/
def reader_read (r : ScriptedReader) : Except IoErrorKind Nat × ScriptedReader :=
  match r.outcomes with
  | [] => (.error .OtherIoError, r)
  | o :: rest => (o, { outcomes := rest })

/-- `handle_reader_cb` from `src/yaml/parser.rs`: the reader bridge.  It
performs exactly one `read` on the underlying source and reports to the
engine: `Ok(size)` → success (return code 1) with `size_read = size`;
`Err(EndOfFile)` → success with `size_read = 0`; any other error →
failure (return code 0), `size_read` not written (`none`). -/
def handle_reader_cb (r : ScriptedReader) : (Int × Option Nat) × ScriptedReader :=
  match reader_read r with
  | (.ok size, r1) => ((1, some size), r1)
  | (.error e, r1) =>
    match e with
    | .EndOfFile => ((1, some 0), r1)
    | _ => ((0, none), r1)

/-- The shape-specific part of a node view's decoded content: the scalar
value (as `get_value` yields it) and style, or the child index array. -/
inductive NodeShapeContent where
  | scalarContent (value : Except String (List Nat)) (style : Nat)
  | sequenceContent (items : List Int)
  | mappingContent (pairs : List (Int × Int))
deriving DecidableEq, Repr

/-- Everything a caller can decode out of one node view: tag, start and
end marks, and the shape-specific content. -/
def YamlNode.decoded_content (n : YamlNode) :
    Option (List Nat) × YamlMark × YamlMark × NodeShapeContent :=
  (n.tag, n.start_mark, n.end_mark,
    match n with
    | .YamlScalarNode s => .scalarContent s.get_value s.style
    | .YamlSequenceNode s => .sequenceContent s.items
    | .YamlMappingNode s => .mappingContent s.pairs)

/-- The sequence iterator in the state reached after `k` yields from
`values`: `ptr` has advanced `k` slots from the start of the item
array. -/
def YamlSequenceData.iter_at (s : YamlSequenceData) (k : Nat) : YamlSequenceIter :=
  { doc := s.doc, items := s.items, top := s.items.length, ptr := k }

/-- The mapping iterator in the state reached after `k` yields from
`pairs`. -/
def YamlMappingData.iter_at (m : YamlMappingData) (k : Nat) : YamlMappingIter :=
  { doc := m.doc, pairs := m.pairs, top := m.pairs.length, ptr := k }

/-! Concrete sample values, used to instantiate the theorems below. -/

/-- The origin mark. -/
def mark0 : EngineMark := { index := 0, line := 0, column := 0 }

/-- A freshly initialized parser state with the given scripted engine
behaviour: no error recorded, no diagnostics. -/
def fresh_state (script : List (EngineStep EngineEvent)) (docScript : List DocStep) :
    ParserMem :=
  { script := script, docScript := docScript, error := .YAML_NO_ERROR
    problem := none, problem_offset := 0, problem_mark := mark0
    context := none, context_mark := mark0 }

/-- A parser state in which the engine has recorded a failure of kind
`k`, with sample diagnostic text ("foo" / "bar" bytes). -/
def sample_err_state (k : EngineErrorCode) : ParserMem :=
  { script := [], docScript := [], error := k
    problem := some [102, 111, 111], problem_offset := 5
    problem_mark := { index := 5, line := 1, column := 2 }
    context := some [98, 97, 114]
    context_mark := { index := 7, line := 2, column := 1 } }

/-- The parser state for the malformed three-byte input consisting of a
double quote then `ab` (an unterminated quoted scalar).  Modelled from
the spec (§8): the engine yields a UTF-8 StreamStart record, then fails
with a scanner error (diagnostic text "eof" bytes, at byte offset 3). -/
def quote_ab_state : ParserMem :=
  fresh_state
    [.yield (.streamStart .YamlUtf8Encoding),
     .failWith .YAML_SCANNER_ERROR (some [101, 111, 102]) 3
       { index := 3, line := 0, column := 3 } none mark0]
    []

/-- The empty document value (no nodes, hence no root). -/
def empty_document : YamlDocument := { document_mem := { nodes := [] } }

/-- Engine scalar node holding the byte "1". -/
def scalar_node_1 : EngineNode :=
  { data := .scalar [49] 0, tag := none
    start_mark := { index := 1, line := 0, column := 1 }
    end_mark := { index := 2, line := 0, column := 2 } }

/-- Engine scalar node holding the byte "2". -/
def scalar_node_2 : EngineNode :=
  { data := .scalar [50] 0, tag := none
    start_mark := { index := 4, line := 0, column := 4 }
    end_mark := { index := 5, line := 0, column := 5 } }

/-- Engine scalar node holding the byte "3". -/
def scalar_node_3 : EngineNode :=
  { data := .scalar [51] 0, tag := none
    start_mark := { index := 7, line := 0, column := 7 }
    end_mark := { index := 8, line := 0, column := 8 } }

/-- Engine sequence node whose items are nodes 2, 3, 4. -/
def seq_node_123 : EngineNode :=
  { data := .sequence [2, 3, 4] 1, tag := none
    start_mark := mark0
    end_mark := { index := 9, line := 0, column := 9 } }

/-- The document tree for the input [1, 2, 3]: the root sequence is node
1, its scalar items are nodes 2, 3, 4. -/
def doc_123 : YamlDocument :=
  { document_mem := { nodes := [seq_node_123, scalar_node_1, scalar_node_2, scalar_node_3] } }

/-- The root sequence view of `doc_123`. -/
def seq_data_123 : YamlSequenceData :=
  { doc := doc_123, node := seq_node_123, items := [2, 3, 4] }

/-- Engine mapping node whose pairs are (node 2, node 3) and
(node 4, node 5). -/
def map_node_ab : EngineNode :=
  { data := .mapping [(2, 3), (4, 5)] 1, tag := none
    start_mark := mark0
    end_mark := { index := 15, line := 0, column := 15 } }

/-- Engine scalar node holding the byte "a". -/
def scalar_node_a : EngineNode :=
  { data := .scalar [97] 2, tag := none
    start_mark := { index := 1, line := 0, column := 1 }
    end_mark := { index := 4, line := 0, column := 4 } }

/-- Engine scalar node holding the byte "b". -/
def scalar_node_b : EngineNode :=
  { data := .scalar [98] 2, tag := none
    start_mark := { index := 9, line := 0, column := 9 }
    end_mark := { index := 12, line := 0, column := 12 } }

/-- The document tree for the input consisting of a flow mapping with
keys "a", "b" and values "1", "2": the root mapping is node 1. -/
def doc_map_ab : YamlDocument :=
  { document_mem :=
    { nodes := [map_node_ab, scalar_node_a, scalar_node_1, scalar_node_b, scalar_node_2] } }

/-- The root mapping view of `doc_map_ab`. -/
def map_data_ab : YamlMappingData :=
  { doc := doc_map_ab, node := map_node_ab, pairs := [(2, 3), (4, 5)] }

/-- A scalar view whose byte buffer is valid UTF-8 ("hi"). -/
def good_scalar : YamlScalarData :=
  { node := scalar_node_1, value := [104, 105], style := 0 }

/-- A scalar view whose byte buffer is not valid UTF-8 (a lone 0xFF
byte). -/
def bad_scalar : YamlScalarData :=
  { node := scalar_node_1, value := [255], style := 0 }

/-- An engine node record whose shape discriminant is the engine's
`YAML_NO_NODE`, the one value outside {scalar, sequence, mapping}. -/
def no_node_sample : EngineNode :=
  { data := .noNode, tag := none, start_mark := mark0, end_mark := mark0 }

/-- A parser state whose next engine parse call fails recording the
allocation-failure code `YAML_MEMORY_ERROR` (the engine reports an
out-of-memory condition). -/
def mem_fail_state : ParserMem :=
  fresh_state [.failWith .YAML_MEMORY_ERROR none 0 mark0 none mark0] []

/-! The claim theorems. -/

/-- Claim C1 (code bug): `get_error` maps each engine error code it
matches to the corresponding member of the closed `YamlErrorType`
taxonomy, but the engine's allocation-failure code `YAML_MEMORY_ERROR`
is missing from the source's match: it falls into the
`fail!("unknown error type")` wildcard (modelled as `none`), so an
engine allocation failure panics instead of being surfaced as a
`YamlMemoryError` snapshot — even though the `YamlErrorType` enumeration
declares that member. -/
theorem C1_memory_error_panics_in_get_error :
    YamlBaseParser.get_error (sample_err_state .YAML_MEMORY_ERROR) = none ∧
    (YamlBaseParser.get_error (sample_err_state .YAML_NO_ERROR)).map YamlError.kind
      = some .YamlNoError ∧
    (YamlBaseParser.get_error (sample_err_state .YAML_READER_ERROR)).map YamlError.kind
      = some .YamlReaderError ∧
    (YamlBaseParser.get_error (sample_err_state .YAML_SCANNER_ERROR)).map YamlError.kind
      = some .YamlScannerError ∧
    (YamlBaseParser.get_error (sample_err_state .YAML_PARSER_ERROR)).map YamlError.kind
      = some .YamlParserError ∧
    (YamlBaseParser.get_error (sample_err_state .YAML_COMPOSER_ERROR)).map YamlError.kind
      = some .YamlComposerError ∧
    (YamlBaseParser.get_error (sample_err_state .YAML_WRITER_ERROR)).map YamlError.kind
      = some .YamlWriterError ∧
    (YamlBaseParser.get_error (sample_err_state .YAML_EMITTER_ERROR)).map YamlError.kind
      = some .YamlEmitterError := by
  decide

/-- Claim C2: for every document, `root()` yields no node exactly when
`is_empty()` is true; on a document with no content `root()` returns the
none outcome directly (no panic, no dereference of the absent root). -/
theorem C2_root_none_iff_is_empty (d : YamlDocument) :
    d.root = Except.ok none ↔ d.is_empty = true := by
  cases h : yaml_document_get_root_node d with
  | none => simp [YamlDocument.root, YamlDocument.is_empty, h]
  | some n =>
    constructor
    · intro hc
      exfalso
      simp only [YamlDocument.root, h] at hc
      cases hl : YamlDocument.load d (some n) with
      | error e => rw [hl] at hc; simp [Except.map] at hc
      | ok y => rw [hl] at hc; simp [Except.map] at hc
    · intro hc
      simp [YamlDocument.is_empty, h] at hc

/-- Witness for C2 at the empty document. -/
theorem C2_witness : empty_document.root = Except.ok none :=
  (C2_root_none_iff_is_empty empty_document).mpr rfl

/-- Counterexample to claim C3 as stated: at `mem_fail_state` the
engine's single-event parse fails (it returns `none`), yet `next_event`
does not return `Err` of a captured error state — it panics inside
`get_error` (the outer `Except.error`), because the failing parse
recorded `YAML_MEMORY_ERROR` and the source's `get_error` match omits
that code. -/
theorem C3_counterexample :
    (yaml_parser_parse mem_fail_state).1 = none ∧
    (YamlEventStream.next_event mem_fail_state).1 = Except.error "unknown error type" :=
  ⟨rfl, rfl⟩

/-- Claim C3 (amended): `next_event` routes the engine's single-event
parse outcome — success becomes `Ok` of the owned event decoded from the
engine record by `YamlEvent::load`; a failure whose recorded error code
is any of the seven that `get_error` matches becomes `Err` of the error
state captured (by `get_error`) from the parser state as it stands right
after the failing call; but a failure recording `YAML_MEMORY_ERROR`
panics inside `get_error` instead of returning `Err`. -/
theorem C3_next_event_routing (p : ParserMem) :
    (∀ e p1, yaml_parser_parse p = (some e, p1) →
      YamlEventStream.next_event p = (Except.ok (Except.ok (YamlEvent.load e)), p1)) ∧
    (∀ p1 err, yaml_parser_parse p = (none, p1) →
      YamlBaseParser.get_error p1 = some err →
      YamlEventStream.next_event p = (Except.ok (Except.error err), p1)) ∧
    (∀ p1, yaml_parser_parse p = (none, p1) →
      p1.error = .YAML_MEMORY_ERROR →
      YamlEventStream.next_event p = (Except.error "unknown error type", p1)) := by
  refine ⟨?_, ?_, ?_⟩
  · intro e p1 hp
    simp [YamlEventStream.next_event, YamlParser.parse_event, hp]
  · intro p1 err hp he
    simp [YamlEventStream.next_event, YamlParser.parse_event, hp, he]
  · intro p1 hp he
    simp [YamlEventStream.next_event, YamlParser.parse_event, hp,
      YamlBaseParser.get_error, he]

/-- Witness for C3: one successful parse (a StreamEnd record), one
failing parse among the seven matched codes (a grammar error), and one
failing parse recording the allocation-failure code (the panic case). -/
theorem C3_witness :
    (YamlEventStream.next_event (fresh_state [.yield .streamEnd] [])).1
      = Except.ok (Except.ok .YamlStreamEndEvent) ∧
    (YamlEventStream.next_event
        (fresh_state [.failWith .YAML_PARSER_ERROR none 0 mark0 none mark0] [])).1
      = Except.ok (Except.error
          { kind := .YamlParserError, problem := none, byte_offset := 0
            problem_mark := YamlMark.conv mark0, context := none
            context_mark := YamlMark.conv mark0 }) ∧
    (YamlEventStream.next_event mem_fail_state).1
      = Except.error "unknown error type" :=
  ⟨congrArg Prod.fst ((C3_next_event_routing (fresh_state [.yield .streamEnd] [])).1
      .streamEnd _ rfl),
   congrArg Prod.fst ((C3_next_event_routing
      (fresh_state [.failWith .YAML_PARSER_ERROR none 0 mark0 none mark0] [])).2.1
      _ _ rfl rfl),
   congrArg Prod.fst ((C3_next_event_routing mem_fail_state).2.2 _ rfl rfl)⟩

/-- Claim C4: on the malformed three-byte input (a double quote then
`ab`, an unterminated quoted scalar) the first `next_event` returns `Ok`
of StreamStart and the second returns `Err` with kind ScannerError; both
calls return (outer `Except.ok`), neither panics, and the failure is a
typed error rather than a silent end of stream. -/
theorem C4_unterminated_quote_is_scanner_error :
    (YamlEventStream.next_event quote_ab_state).1
      = Except.ok (Except.ok (.YamlStreamStartEvent .YamlUtf8Encoding)) ∧
    (YamlEventStream.next_event (YamlEventStream.next_event quote_ab_state).2).1
      = Except.ok (Except.error
          { kind := .YamlScannerError
            problem := some [101, 111, 102]
            byte_offset := 3
            problem_mark := { index := 3, line := 0, column := 3 }
            context := none
            context_mark := { index := 0, line := 0, column := 0 } }) := by
  constructor
  · rfl
  · rfl

/-- Claim C5: the reader bridge performs exactly one read on the
underlying byte source (leaving it advanced by one outcome, no retry)
and reports: a successful read of `n` bytes as engine success (code 1)
with count `n`; end-of-input as engine success with count 0; any other
failure as engine failure (code 0), with no count written. -/
theorem C5_reader_bridge_single_read (r : ScriptedReader)
    (res : Except IoErrorKind Nat) (rest : ScriptedReader)
    (h : reader_read r = (res, rest)) :
    (handle_reader_cb r).2 = rest ∧
    (∀ n, res = .ok n → (handle_reader_cb r).1 = (1, some n)) ∧
    (res = .error .EndOfFile → (handle_reader_cb r).1 = (1, some 0)) ∧
    (∀ e, res = .error e → e ≠ .EndOfFile → (handle_reader_cb r).1 = (0, none)) := by
  unfold handle_reader_cb
  rw [h]
  refine ⟨?_, ?_, ?_, ?_⟩
  · cases res with
    | ok n => rfl
    | error e => cases e <;> rfl
  · intro n hn
    subst hn
    rfl
  · intro hn
    subst hn
    rfl
  · intro e hn hne
    subst hn
    cases e with
    | EndOfFile => exact absurd rfl hne
    | PermissionDenied => rfl
    | OtherIoError => rfl

/-- Witness for C5: a 4-byte read, an end-of-input read, and a failing
read. -/
theorem C5_witness :
    (handle_reader_cb { outcomes := [.ok 4] }).1 = (1, some 4) ∧
    (handle_reader_cb { outcomes := [.error .EndOfFile] }).1 = (1, some 0) ∧
    (handle_reader_cb { outcomes := [.error .OtherIoError] }).1 = (0, none) :=
  ⟨(C5_reader_bridge_single_read _ _ _ rfl).2.1 4 rfl,
   (C5_reader_bridge_single_read { outcomes := [.error .EndOfFile] } _ _ rfl).2.2.1 rfl,
   (C5_reader_bridge_single_read { outcomes := [.error .OtherIoError] } _ _ rfl).2.2.2
     .OtherIoError rfl (by decide)⟩

/-- Claim C6: a fresh collection iterator starts at the collection's
start; while the position is below the recorded end boundary, each
`next` materializes the child recorded at the current position (the
item node for sequences, the key/value node pair for mappings) and
advances the position by exactly one; once the position equals the end
boundary, `next` signals end-of-collection.  The child delivered at
position `k` is the collection's `k`-th recorded entry, so children come
in the document's literal order, with no re-sorting and no
de-duplication. -/
theorem C6_collection_iterators (s : YamlSequenceData) (m : YamlMappingData)
    (k j : Nat) :
    s.values = s.iter_at 0 ∧
    (∀ h : k < s.items.length,
      (s.iter_at k).next
        = (s.doc.get_node (s.items.get ⟨k, h⟩)).map
            (fun n => some (n, s.iter_at (k + 1)))) ∧
    (k = s.items.length → (s.iter_at k).next = .ok none) ∧
    m.pairs_iter = m.iter_at 0 ∧
    (∀ h : j < m.pairs.length,
      (m.iter_at j).next
        = (m.doc.get_node (m.pairs.get ⟨j, h⟩).1).bind (fun key =>
            (m.doc.get_node (m.pairs.get ⟨j, h⟩).2).map (fun val =>
              some ((key, val), m.iter_at (j + 1))))) ∧
    (j = m.pairs.length → (m.iter_at j).next = .ok none) := by
  refine ⟨rfl, ?_, ?_, rfl, ?_, ?_⟩
  · intro h
    have hk : k ≠ s.items.length := Nat.ne_of_lt h
    simp only [YamlSequenceData.iter_at, YamlSequenceIter.next, hk, if_false,
      List.get?_eq_get h]
    cases hg : s.doc.get_node (s.items.get ⟨k, h⟩) with
    | error e => simp [Except.map]
    | ok node => simp [Except.map]
  · intro hk
    simp [YamlSequenceData.iter_at, YamlSequenceIter.next, hk]
  · intro h
    have hj : j ≠ m.pairs.length := Nat.ne_of_lt h
    simp only [YamlMappingData.iter_at, YamlMappingIter.next, hj, if_false,
      List.get?_eq_get h]
    cases hg : m.doc.get_node (m.pairs.get ⟨j, h⟩).1 with
    | error e => simp [Except.bind]
    | ok key =>
      cases hg2 : m.doc.get_node (m.pairs.get ⟨j, h⟩).2 with
      | error e => simp [Except.bind, Except.map]
      | ok val => simp [Except.bind, Except.map]
  · intro hj
    simp [YamlMappingData.iter_at, YamlMappingIter.next, hj]

/-- Witness for C6 on the [1, 2, 3] sequence tree and the two-pair
mapping tree: first yields, terminal positions, and the fresh-iterator
equations. -/
theorem C6_witness :
    seq_data_123.values = seq_data_123.iter_at 0 ∧
    (seq_data_123.iter_at 0).next
      = Except.ok (some (.YamlScalarNode { node := scalar_node_1, value := [49], style := 0 },
          seq_data_123.iter_at 1)) ∧
    (seq_data_123.iter_at 3).next = Except.ok none ∧
    map_data_ab.pairs_iter = map_data_ab.iter_at 0 ∧
    (map_data_ab.iter_at 0).next
      = Except.ok (some
          ((.YamlScalarNode { node := scalar_node_a, value := [97], style := 2 },
            .YamlScalarNode { node := scalar_node_1, value := [49], style := 0 }),
          map_data_ab.iter_at 1)) ∧
    (map_data_ab.iter_at 2).next = Except.ok none := by
  have h0 := C6_collection_iterators seq_data_123 map_data_ab 0 0
  have h3 := C6_collection_iterators seq_data_123 map_data_ab 3 2
  exact ⟨h0.1, h0.2.1 (by decide), h3.2.2.1 rfl, h0.2.2.2.1,
    h0.2.2.2.2.1 (by decide), h3.2.2.2.2.2 rfl⟩

/-- Claim C7: `root()` is a read-only view constructor — it takes the
document by shared reference (pure in this embedding, so it cannot
mutate the document) and two calls yield views with identical decoded
content (tag, marks, scalar value or children). -/
theorem C7_root_views_identical (d : YamlDocument) :
    d.root = d.root ∧
    ∀ n1 n2, d.root = .ok (some n1) → d.root = .ok (some n2) →
      n1.decoded_content = n2.decoded_content := by
  refine ⟨rfl, ?_⟩
  intro n1 n2 h1 h2
  rw [h1] at h2
  injection h2 with h3
  injection h3 with h4
  rw [h4]

/-- Witness for C7 at the [1, 2, 3] document, whose root is the sequence
view. -/
theorem C7_witness :
    (YamlNode.YamlSequenceNode seq_data_123).decoded_content
      = (YamlNode.YamlSequenceNode seq_data_123).decoded_content :=
  (C7_root_views_identical doc_123).2 _ _ rfl rfl

/-- Claim C8: node materialization panics (modelled as `Except.error`,
never a `YamlError` value) on a null node pointer or on the one engine
shape discriminant outside the closed set {scalar, sequence, mapping};
whenever the discriminant is in the closed set, materialization
succeeds, so the abort branch is unreachable for engine-conforming
nodes. -/
theorem C8_load_aborts_outside_closed_set (d : YamlDocument) (n : EngineNode) :
    d.load none = .error "empty node" ∧
    (n.data = .noNode → d.load (some n) = .error "invalid node") ∧
    (n.data ≠ .noNode → ∃ y, d.load (some n) = .ok y) := by
  refine ⟨rfl, ?_, ?_⟩
  · intro h
    simp [YamlDocument.load, h]
  · intro h
    cases hd : n.data with
    | noNode => exact absurd hd h
    | scalar v st =>
      exact ⟨.YamlScalarNode { node := n, value := v, style := st },
        by simp [YamlDocument.load, hd]⟩
    | sequence it st =>
      exact ⟨.YamlSequenceNode { doc := d, node := n, items := it },
        by simp [YamlDocument.load, hd]⟩
    | mapping pr st =>
      exact ⟨.YamlMappingNode { doc := d, node := n, pairs := pr },
        by simp [YamlDocument.load, hd]⟩

/-- Witness for C8: the null pointer, a `YAML_NO_NODE` record, and a
scalar record. -/
theorem C8_witness :
    empty_document.load none = .error "empty node" ∧
    empty_document.load (some no_node_sample) = .error "invalid node" ∧
    ∃ y, empty_document.load (some scalar_node_1) = .ok y :=
  ⟨(C8_load_aborts_outside_closed_set empty_document no_node_sample).1,
   (C8_load_aborts_outside_closed_set empty_document no_node_sample).2.1 rfl,
   (C8_load_aborts_outside_closed_set empty_document scalar_node_1).2.2 (by decide)⟩

/-- Claim C9: with the input exhausted, `next_document` returns `Ok` of
a document whose `is_empty()` is true (no error, no dedicated
end-of-stream signal); that outcome is the same visible result as
composing a genuinely empty document (an explicit `---` with no
content), so the two are indistinguishable at this interface; and an
`Err` outcome arises only when the engine's document-composition call
itself fails. -/
theorem C9_document_stream_end_conflation (p q : ParserMem) :
    (p.docScript = [] →
      YamlDocumentStream.next_document p = (Except.ok (Except.ok empty_document), p) ∧
      empty_document.is_empty = true) ∧
    (p.docScript = [.compose []] → q.docScript = [] →
      (YamlDocumentStream.next_document p).1 = (YamlDocumentStream.next_document q).1) ∧
    (∀ err p1, YamlDocumentStream.next_document p = (Except.ok (Except.error err), p1) →
      (yaml_parser_load p).1 = none) := by
  refine ⟨?_, ?_, ?_⟩
  · intro h
    constructor
    · simp [YamlDocumentStream.next_document, YamlDocument.parser_load,
        yaml_parser_load, h, empty_document]
    · rfl
  · intro h1 h2
    simp [YamlDocumentStream.next_document, YamlDocument.parser_load,
      yaml_parser_load, h1, h2]
  · intro err p1 hres
    cases hd : p.docScript with
    | nil =>
      simp [YamlDocumentStream.next_document, YamlDocument.parser_load,
        yaml_parser_load, hd] at hres
    | cons step rest =>
      cases step with
      | compose ns =>
        simp [YamlDocumentStream.next_document, YamlDocument.parser_load,
          yaml_parser_load, hd] at hres
      | composeFail k pr off pm cx cm =>
        simp [yaml_parser_load, hd]

/-- Witness for C9: the exhausted-input state and the
explicit-empty-document state produce the same visible outcome. -/
theorem C9_witness :
    YamlDocumentStream.next_document (fresh_state [] [])
      = (Except.ok (Except.ok empty_document), fresh_state [] []) ∧
    empty_document.is_empty = true ∧
    (YamlDocumentStream.next_document (fresh_state [] [.compose []])).1
      = (YamlDocumentStream.next_document (fresh_state [] [])).1 :=
  ⟨((C9_document_stream_end_conflation (fresh_state [] []) (fresh_state [] [])).1 rfl).1,
   ((C9_document_stream_end_conflation (fresh_state [] []) (fresh_state [] [])).1 rfl).2,
   (C9_document_stream_end_conflation (fresh_state [] [.compose []])
     (fresh_state [] [])).2.1 rfl rfl⟩

/-- Claim C10: `get_value` unwraps the result of decoding the scalar's
byte buffer — it returns the decoded text whenever the bytes decode, and
panics (modelled as `Except.error`; it returns no optional and no error
value) whenever they do not. -/
theorem C10_get_value_unwraps_decode (s : YamlScalarData) :
    (∀ t, decode_buf s.value = some t → s.get_value = .ok t) ∧
    (decode_buf s.value = none →
      s.get_value = .error "called unwrap on a None value") := by
  constructor
  · intro t h
    simp [YamlScalarData.get_value, h]
  · intro h
    simp [YamlScalarData.get_value, h]

/-- Witness for C10: a decodable buffer ("hi") and an undecodable one
(a lone 0xFF byte). -/
theorem C10_witness :
    good_scalar.get_value = .ok [104, 105] ∧
    bad_scalar.get_value = .error "called unwrap on a None value" :=
  ⟨(C10_get_value_unwraps_decode good_scalar).1 [104, 105] rfl,
   (C10_get_value_unwraps_decode bad_scalar).2 rfl⟩

end LibYaml
